import Mathlib

/-!
Verification of the control-file reader/decoder in `pg_controldata.c`.

The source exposes the contents of a PostgreSQL control file as 30
(name, setting) string pairs: `get_controldata` opens
`<DataDir>/global/pg_control`, reads one `ControlFileData` record,
verifies its CRC-32, and formats each field into the static
`ControlData` table; `pg_controldata` then materializes that table.

The embedding below models the record as a byte list (the file
contents), the CRC as the bit-level reflected CRC-32 the engine uses,
and the formatter field by field from the source.  External
collaborators that are not part of this repository (the CRC macros of
`pg_crc.h`, libc's `printf` conversions, the struct layout of
`pg_control.h`) are modelled from the specification, as marked on each
definition.
-/

namespace PgControldata

set_option maxRecDepth 8000

/-- Modelled from the spec: the CRC-32 polynomial of the engine's
checksum (`INIT_CRC32`/`COMP_CRC32`/`FIN_CRC32` of `pg_crc.h` are not
part of this repository).  Reflected polynomial, pinned as a fixed
constant per the spec's compatibility requirement. -/
def crcPoly : Nat := 0xEDB88320

/-- Modelled from the spec: one step of the reflected CRC-32, consuming
one message bit.  The incoming bit is xor-ed into the low end of the
state; the state is shifted down and conditionally folded with the
polynomial. -/
def crcBitStep (c : Nat) (b : Bool) : Nat :=
  if (c + (if b then 1 else 0)) % 2 = 1 then (c / 2) ^^^ crcPoly else c / 2

/-- Bits of one byte, least significant first, as consumed by the
reflected CRC. -/
def bitsOfByte (b : Nat) : List Bool :=
  [b.testBit 0, b.testBit 1, b.testBit 2, b.testBit 3,
   b.testBit 4, b.testBit 5, b.testBit 6, b.testBit 7]

/-- Modelled from the spec: `COMP_CRC32` advanced by one message byte. -/
def crcByteStep (c : Nat) (b : Nat) : Nat :=
  (bitsOfByte b).foldl crcBitStep c

/-- Modelled from the spec: `COMP_CRC32` over a byte sequence. -/
def crcFold (c : Nat) (bytes : List Nat) : Nat :=
  bytes.foldl crcByteStep c

/-- Modelled from the spec: the full checksum: `INIT_CRC32` (all-ones
start value), `COMP_CRC32` over the bytes, `FIN_CRC32` (final
inversion). -/
def crc32 (bytes : List Nat) : Nat :=
  crcFold 0xFFFFFFFF bytes ^^^ 0xFFFFFFFF

/-- Flip bit `p % 8` of byte `p / 8` of a byte list: single-bit
corruption at overall bit position `p`. -/
def flipByteBit (bytes : List Nat) (p : Nat) : List Nat :=
  bytes.set (p / 8) (bytes.getD (p / 8) 0 ^^^ 2 ^ (p % 8))

/-- Modelled from the spec: the digit characters used by libc's
`%u`/`%X` conversions (decimal digits, uppercase hex letters). -/
def printfDigit (d : Nat) : Char :=
  match d with
  | 0 => '0'
  | 1 => '1'
  | 2 => '2'
  | 3 => '3'
  | 4 => '4'
  | 5 => '5'
  | 6 => '6'
  | 7 => '7'
  | 8 => '8'
  | 9 => '9'
  | 10 => 'A'
  | 11 => 'B'
  | 12 => 'C'
  | 13 => 'D'
  | 14 => 'E'
  | 15 => 'F'
  | _ => '?'

/-- Decimal digit expansion, most significant first, fuel-indexed so the
recursion is structural.  Fuel `n + 1` always suffices. -/
def decCharsAux : Nat → Nat → List Char → List Char
  | 0, _, acc => acc
  | fuel + 1, n, acc =>
    if n < 10 then printfDigit n :: acc
    else decCharsAux fuel (n / 10) (printfDigit (n % 10) :: acc)

/-- Modelled from the spec: libc's `%u` / `UINT64_FORMAT` conversion:
the full unsigned decimal representation of the value, no truncation. -/
def printfU (n : Nat) : String :=
  String.mk (decCharsAux (n + 1) n [])

/-- Uppercase hexadecimal digit expansion, most significant first,
fuel-indexed so the recursion is structural. -/
def hexCharsAux : Nat → Nat → List Char → List Char
  | 0, _, acc => acc
  | fuel + 1, n, acc =>
    if n < 16 then printfDigit n :: acc
    else hexCharsAux fuel (n / 16) (printfDigit (n % 16) :: acc)

/-- Modelled from the spec: libc's `%X` conversion: uppercase
hexadecimal, no leading zero-padding. -/
def printfX (n : Nat) : String :=
  String.mk (hexCharsAux (n + 1) n [])

/-- Value of a decimal digit list read back as a number (used to show
the decimal rendering is faithful). -/
def parseDecChars (cs : List Char) : Nat :=
  cs.foldl (fun a c => a * 10 + (c.toNat - 48)) 0

/-- Little-endian read of `w` bytes at offset `off` (missing bytes read
as 0; callers establish the length precondition first, mirroring the
size-checked `read` into the struct). -/
def readLE (bytes : List Nat) (off : Nat) : Nat → Nat
  | 0 => 0
  | w + 1 => bytes.getD off 0 % 256 + 256 * readLE bytes (off + 1) w

/-- Source `XLogRecPtr`: a write-ahead-log position, high/low 32-bit
pair. -/
structure XLogRecPtr where
  xlogid : Nat
  xrecoff : Nat

/-- Source `CheckPoint` block of `ControlFileData`, fields in the
spec's published order. -/
structure CheckPoint where
  redo : XLogRecPtr
  ThisTimeLineID : Nat
  nextXidEpoch : Nat
  nextXid : Nat
  nextOid : Nat
  nextMulti : Nat
  nextMultiOffset : Nat
  oldestXid : Nat
  oldestXidDB : Nat
  oldestActiveXid : Nat
  time : Nat

/-- Source `ControlFileData`: the typed view of the control record,
with exactly the fields `get_controldata` consumes.  Machine integers
are modelled as `Nat` (they are produced by bounded byte reads); the
three representation flags are `Bool`. -/
structure ControlFileData where
  pg_control_version : Nat
  catalog_version_no : Nat
  system_identifier : Nat
  state : Nat
  time : Nat
  checkPoint : XLogRecPtr
  prevCheckPoint : XLogRecPtr
  checkPointCopy : CheckPoint
  minRecoveryPoint : XLogRecPtr
  backupStartPoint : XLogRecPtr
  maxAlign : Nat
  blcksz : Nat
  relseg_size : Nat
  xlog_blcksz : Nat
  xlog_seg_size : Nat
  nameDataLen : Nat
  indexMaxKeys : Nat
  toast_max_chunk_size : Nat
  enableIntTimes : Bool
  float4ByVal : Bool
  float8ByVal : Bool
  crc : Nat

/-- Modelled from the spec: byte offset of the trailing `crc` field
(`offsetof(ControlFileData, crc)`): the layout of `pg_control.h` is not
part of this repository, so the spec's field list (section 6) is pinned
as a packed little-endian layout; the CRC covers the 147 bytes that
precede the stored checksum. -/
def crcOffset : Nat := 147

/-- Modelled from the spec: `sizeof(ControlFileData)` under the pinned
layout: the 147 checksummed bytes plus the 4-byte stored CRC. -/
def sizeofControlFileData : Nat := 151

/-- Modelled from the spec: decoding of the raw record bytes into the
typed struct under the pinned packed little-endian layout (the struct
overlay performed by `read(fd, &ControlFile, sizeof(ControlFileData))`
in the source). -/
def parseControlFileData (b : List Nat) : ControlFileData where
  pg_control_version := readLE b 0 4
  catalog_version_no := readLE b 4 4
  system_identifier := readLE b 8 8
  state := readLE b 16 4
  time := readLE b 20 8
  checkPoint := ⟨readLE b 28 4, readLE b 32 4⟩
  prevCheckPoint := ⟨readLE b 36 4, readLE b 40 4⟩
  checkPointCopy :=
    { redo := ⟨readLE b 44 4, readLE b 48 4⟩
      ThisTimeLineID := readLE b 52 4
      nextXidEpoch := readLE b 56 4
      nextXid := readLE b 60 4
      nextOid := readLE b 64 4
      nextMulti := readLE b 68 4
      nextMultiOffset := readLE b 72 4
      oldestXid := readLE b 76 4
      oldestXidDB := readLE b 80 4
      oldestActiveXid := readLE b 84 4
      time := readLE b 88 8 }
  minRecoveryPoint := ⟨readLE b 96 4, readLE b 100 4⟩
  backupStartPoint := ⟨readLE b 104 4, readLE b 108 4⟩
  maxAlign := readLE b 112 4
  blcksz := readLE b 116 4
  relseg_size := readLE b 120 4
  xlog_blcksz := readLE b 124 4
  xlog_seg_size := readLE b 128 4
  nameDataLen := readLE b 132 4
  indexMaxKeys := readLE b 136 4
  toast_max_chunk_size := readLE b 140 4
  enableIntTimes := decide (b.getD 144 0 % 256 ≠ 0)
  float4ByVal := decide (b.getD 145 0 % 256 ≠ 0)
  float8ByVal := decide (b.getD 146 0 % 256 ≠ 0)
  crc := readLE b 147 4

/-- Source `dbState`: display string for the database-state enum
(`DBState` values 0..5 per the spec); any other value falls through the
switch to the "unrecognized" string. -/
def dbState (state : Nat) : String :=
  match state with
  | 0 => "starting up"
  | 1 => "shut down"
  | 2 => "shutting down"
  | 3 => "in crash recovery"
  | 4 => "in archive recovery"
  | 5 => "in production"
  | _ => "unrecognized status code"

/-- Source `%X/%X` rendering of an `XLogRecPtr`. -/
def formatXLogRecPtr (p : XLogRecPtr) : String :=
  printfX p.xlogid ++ "/" ++ printfX p.xrecoff

/-- Source: the 30 field names of the static `ControlData` table, in
order (the trailing NULL sentinel ends the table, so exactly these 30
rows are emitted). -/
def controlDataNames : List String :=
  ["pg_control version number",
   "Catalog version number",
   "Database system identifier",
   "Database cluster state",
   "pg_control last modified",
   "Latest checkpoint location",
   "Prior checkpoint location",
   "Latest checkpoint's REDO location",
   "Latest checkpoint's TimeLineID",
   "Latest checkpoint's NextXID",
   "Latest checkpoint's NextOID",
   "Latest checkpoint's NextMultiXactId",
   "Latest checkpoint's NextMultiOffset",
   "Latest checkpoint's oldestXID",
   "Latest checkpoint's oldestXID's DB",
   "Latest checkpoint's oldestActiveXID",
   "Time of latest checkpoint",
   "Minimum recovery ending location",
   "Backup start location",
   "Maximum data alignment",
   "Database block size",
   "Blocks per segment of large relation",
   "WAL block size",
   "Bytes per WAL segment",
   "Maximum length of identifiers",
   "Maximum columns in an index",
   "Maximum size of a TOAST chunk",
   "Date/time type storage",
   "Float4 argument passing",
   "Float8 argument passing"]

/-- Source: the formatting part of `get_controldata` (the 30
`appendStringInfo`/`pstrdup` assignments into `ControlData`), as a pure
function of the validated record.  `strfmtC` abstracts the
`strftime("%c", localtime(..))` rendering of a timestamp, which depends
only on the process's locale and timezone. -/
def formatControlData (strfmtC : Nat → String) (cf : ControlFileData) : List (String × String) :=
  [("pg_control version number", printfU cf.pg_control_version),
   ("Catalog version number", printfU cf.catalog_version_no),
   ("Database system identifier", printfU cf.system_identifier),
   ("Database cluster state", dbState cf.state),
   ("pg_control last modified", strfmtC cf.time),
   ("Latest checkpoint location", formatXLogRecPtr cf.checkPoint),
   ("Prior checkpoint location", formatXLogRecPtr cf.prevCheckPoint),
   ("Latest checkpoint's REDO location", formatXLogRecPtr cf.checkPointCopy.redo),
   ("Latest checkpoint's TimeLineID", printfU cf.checkPointCopy.ThisTimeLineID),
   ("Latest checkpoint's NextXID", printfU cf.checkPointCopy.nextXidEpoch ++ "/" ++ printfU cf.checkPointCopy.nextXid),
   ("Latest checkpoint's NextOID", printfU cf.checkPointCopy.nextOid),
   ("Latest checkpoint's NextMultiXactId", printfU cf.checkPointCopy.nextMulti),
   ("Latest checkpoint's NextMultiOffset", printfU cf.checkPointCopy.nextMultiOffset),
   ("Latest checkpoint's oldestXID", printfU cf.checkPointCopy.oldestXid),
   ("Latest checkpoint's oldestXID's DB", printfU cf.checkPointCopy.oldestXidDB),
   ("Latest checkpoint's oldestActiveXID", printfU cf.checkPointCopy.oldestActiveXid),
   ("Time of latest checkpoint", strfmtC cf.checkPointCopy.time),
   ("Minimum recovery ending location", formatXLogRecPtr cf.minRecoveryPoint),
   ("Backup start location", formatXLogRecPtr cf.backupStartPoint),
   ("Maximum data alignment", printfU cf.maxAlign),
   ("Database block size", printfU cf.blcksz),
   ("Blocks per segment of large relation", printfU cf.relseg_size),
   ("WAL block size", printfU cf.xlog_blcksz),
   ("Bytes per WAL segment", printfU cf.xlog_seg_size),
   ("Maximum length of identifiers", printfU cf.nameDataLen),
   ("Maximum columns in an index", printfU cf.indexMaxKeys),
   ("Maximum size of a TOAST chunk", printfU cf.toast_max_chunk_size),
   ("Date/time type storage", if cf.enableIntTimes then "64-bit integers" else "floating-point numbers"),
   ("Float4 argument passing", if cf.float4ByVal then "by value" else "by reference"),
   ("Float8 argument passing", if cf.float8ByVal then "by value" else "by reference")]

/-- Failure modes of `get_controldata`, one per `elog(ERROR, ..)` site:
open failure, read failure (short read / truncated file, the spec's
`IOError Truncated`), and CRC mismatch (the spec's `ChecksumError`). -/
inductive PgError where
  | openFailed
  | readFailed
  | checksumError
deriving DecidableEq

/-- Source `get_controldata` as a function of the file: `none` models a
failed `open`; `some bytes` models the file contents.  The `read` must
return exactly `sizeof(ControlFileData)` bytes; then the CRC over the
bytes preceding the stored checksum must equal the stored checksum;
only then are the fields formatted. -/
def get_controldata (strfmtC : Nat → String) (file : Option (List Nat)) :
    Except PgError (List (String × String)) :=
  match file with
  | none => .error .openFailed
  | some bytes =>
    if bytes.length < sizeofControlFileData then .error .readFailed
    else
      let cf := parseControlFileData bytes
      if crc32 (bytes.take crcOffset) ≠ cf.crc then .error .checksumError
      else .ok (formatControlData strfmtC cf)

/-- Source `get_controldata` with the static `ControlData` table made
explicit: the table (name, optional setting) is the in-process state;
every `elog(ERROR, ..)` exit happens before any assignment to the
table, and on success every row's setting is overwritten. -/
def get_controldata_tbl (strfmtC : Nat → String) (file : Option (List Nat))
    (table : List (String × Option String)) :
    Option PgError × List (String × Option String) :=
  match file with
  | none => (some .openFailed, table)
  | some bytes =>
    if bytes.length < sizeofControlFileData then (some .readFailed, table)
    else
      let cf := parseControlFileData bytes
      if crc32 (bytes.take crcOffset) ≠ cf.crc then (some .checksumError, table)
      else (none, (formatControlData strfmtC cf).map (fun r => (r.1, some r.2)))

/-- Source `get_controldata` with the file-descriptor lifetime made
explicit.  The second component records whether an opened handle is
still open when control leaves the function: `open` failing opens
nothing; the short-read `elog(ERROR, ..)` at lines 223-225 fires before
the `close(fd)` at line 227, so that exit leaves the handle open; the
CRC check runs after `close(fd)`, so both the checksum-failure exit and
the success path leave no open handle. -/
def get_controldata_fd (strfmtC : Nat → String) (file : Option (List Nat)) :
    Except PgError (List (String × String)) × Bool :=
  match file with
  | none => (.error .openFailed, false)
  | some bytes =>
    if bytes.length < sizeofControlFileData then (.error .readFailed, true)
    else
      let cf := parseControlFileData bytes
      if crc32 (bytes.take crcOffset) ≠ cf.crc then (.error .checksumError, false)
      else (.ok (formatControlData strfmtC cf), false)

/-- Character set that libc's `%X` conversion can emit: decimal digits
and uppercase hex letters. -/
def hexDigitList : List Char :=
  ['0', '1', '2', '3', '4', '5', '6', '7', '8', '9', 'A', 'B', 'C', 'D', 'E', 'F']

/-- Concrete well-formed record: 147 zero bytes followed by the stored
CRC-32 of those bytes (little-endian), used to instantiate the general
theorems on an actual input. -/
def zeroRecord : List Nat :=
  List.replicate 147 0 ++ [173, 133, 234, 150]

/-! Helper lemmas about `Nat` xor. -/

theorem xor_left_cancel {p a b : Nat} (h : p ^^^ a = p ^^^ b) : a = b := by
  have h2 := congrArg (fun x => p ^^^ x) h
  simpa [← Nat.xor_assoc, Nat.xor_self, Nat.zero_xor] using h2

theorem xor_right_cancel {p a b : Nat} (h : a ^^^ p = b ^^^ p) : a = b := by
  rw [Nat.xor_comm a p, Nat.xor_comm b p] at h
  exact xor_left_cancel h

theorem xor_eq_self_iff {a p : Nat} (h : a ^^^ p = a) : p = 0 := by
  have h2 : a ^^^ p = a ^^^ 0 := by simpa using h
  exact xor_left_cancel h2

/-! Lemmas about the CRC state transformer: each step keeps the state
inside 32 bits, is injective in the state, and reacts to a flipped
message bit; hence the whole CRC separates messages that differ in one
bit. -/

theorem crcPoly_lt : crcPoly < 2 ^ 32 := by decide

theorem crcPoly_testBit : crcPoly.testBit 31 = true := by decide

theorem crcBitStep_lt {c : Nat} (h : c < 2 ^ 32) (b : Bool) : crcBitStep c b < 2 ^ 32 := by
  unfold crcBitStep
  by_cases hc : (c + (if b then 1 else 0)) % 2 = 1
  · rw [if_pos hc]
    exact Nat.xor_lt_two_pow (show c / 2 < 2 ^ 32 by omega) crcPoly_lt
  · rw [if_neg hc]
    omega

theorem crcBitStep_inj {c1 c2 : Nat} (h1 : c1 < 2 ^ 32) (h2 : c2 < 2 ^ 32) (b : Bool)
    (h : crcBitStep c1 b = crcBitStep c2 b) : c1 = c2 := by
  have hd1 : c1 / 2 < 2 ^ 31 := by omega
  have hd2 : c2 / 2 < 2 ^ 31 := by omega
  unfold crcBitStep at h
  by_cases ha : (c1 + (if b then 1 else 0)) % 2 = 1 <;>
    by_cases hb2 : (c2 + (if b then 1 else 0)) % 2 = 1
  · rw [if_pos ha, if_pos hb2] at h
    have h3 := xor_right_cancel h
    omega
  · rw [if_pos ha, if_neg hb2] at h
    exfalso
    have ht := congrArg (fun x => Nat.testBit x 31) h
    simp [Nat.testBit_xor, crcPoly_testBit, Nat.testBit_eq_false_of_lt hd1,
      Nat.testBit_eq_false_of_lt hd2] at ht
  · rw [if_neg ha, if_pos hb2] at h
    exfalso
    have ht := congrArg (fun x => Nat.testBit x 31) h
    simp [Nat.testBit_xor, crcPoly_testBit, Nat.testBit_eq_false_of_lt hd1,
      Nat.testBit_eq_false_of_lt hd2] at ht
  · rw [if_neg ha, if_neg hb2] at h
    omega

theorem crcBitStep_flip (c : Nat) (b : Bool) : crcBitStep c b ≠ crcBitStep c (!b) := by
  intro h
  have hpoly : crcPoly ≠ 0 := by decide
  have hdd : (if b then (1 : Nat) else 0) + (if !b then 1 else 0) = 1 := by
    cases b <;> rfl
  unfold crcBitStep at h
  by_cases ha : (c + (if b then 1 else 0)) % 2 = 1 <;>
    by_cases hb2 : (c + (if !b then 1 else 0)) % 2 = 1
  · rw [if_pos ha, if_pos hb2] at h
    omega
  · rw [if_pos ha, if_neg hb2] at h
    exact hpoly (xor_eq_self_iff h)
  · rw [if_neg ha, if_pos hb2] at h
    exact hpoly (xor_eq_self_iff h.symm)
  · rw [if_neg ha, if_neg hb2] at h
    omega

theorem crcBitsFold_lt : ∀ (l : List Bool) (c : Nat), c < 2 ^ 32 →
    List.foldl crcBitStep c l < 2 ^ 32 := by
  intro l
  induction l with
  | nil => intro c hc; simpa using hc
  | cons b t IH =>
    intro c hc
    simpa using IH (crcBitStep c b) (crcBitStep_lt hc b)

theorem crcBitsFold_ne : ∀ (l : List Bool) {c1 c2 : Nat}, c1 < 2 ^ 32 → c2 < 2 ^ 32 →
    c1 ≠ c2 → List.foldl crcBitStep c1 l ≠ List.foldl crcBitStep c2 l := by
  intro l
  induction l with
  | nil => intro c1 c2 _ _ hne; simpa using hne
  | cons b t IH =>
    intro c1 c2 h1 h2 hne
    simp only [List.foldl_cons]
    exact IH (crcBitStep_lt h1 b) (crcBitStep_lt h2 b)
      (fun h => hne (crcBitStep_inj h1 h2 b h))

theorem crcBitsFold_flip : ∀ (pre post : List Bool) (c : Nat) (b : Bool), c < 2 ^ 32 →
    List.foldl crcBitStep c (pre ++ (!b) :: post) ≠
      List.foldl crcBitStep c (pre ++ b :: post) := by
  intro pre
  induction pre with
  | nil =>
    intro post c b hc
    simp only [List.nil_append, List.foldl_cons]
    exact crcBitsFold_ne post (crcBitStep_lt hc _) (crcBitStep_lt hc _)
      (crcBitStep_flip c b).symm
  | cons x pre IH =>
    intro post c b hc
    simp only [List.cons_append, List.foldl_cons]
    exact IH post (crcBitStep c x) b (crcBitStep_lt hc x)

theorem testBit_xor_two_pow {b k i : Nat} :
    (b ^^^ 2 ^ k).testBit i = if k = i then !(b.testBit i) else b.testBit i := by
  rw [Nat.testBit_xor, Nat.testBit_two_pow]
  by_cases h : k = i <;> simp [h]

theorem crcByteStep_lt {c : Nat} (h : c < 2 ^ 32) (b : Nat) : crcByteStep c b < 2 ^ 32 :=
  crcBitsFold_lt _ _ h

theorem crcByteStep_ne {c1 c2 : Nat} (h1 : c1 < 2 ^ 32) (h2 : c2 < 2 ^ 32)
    (hne : c1 ≠ c2) (b : Nat) : crcByteStep c1 b ≠ crcByteStep c2 b :=
  crcBitsFold_ne (bitsOfByte b) h1 h2 hne

theorem crcByteStep_flip {c : Nat} (hc : c < 2 ^ 32) {b k : Nat} (hk : k < 8) :
    crcByteStep c (b ^^^ 2 ^ k) ≠ crcByteStep c b := by
  interval_cases k
  · have e1 : bitsOfByte (b ^^^ 2 ^ 0)
        = [] ++ (!(b.testBit 0)) :: [b.testBit 1, b.testBit 2, b.testBit 3,
           b.testBit 4, b.testBit 5, b.testBit 6, b.testBit 7] := by
      simp only [bitsOfByte, testBit_xor_two_pow, List.cons_append, List.nil_append]
      norm_num
    show List.foldl crcBitStep c (bitsOfByte (b ^^^ 2 ^ 0)) ≠
      List.foldl crcBitStep c (bitsOfByte b)
    rw [e1]
    exact crcBitsFold_flip _ _ c (b.testBit 0) hc
  · have e1 : bitsOfByte (b ^^^ 2 ^ 1)
        = [b.testBit 0] ++ (!(b.testBit 1)) :: [b.testBit 2, b.testBit 3,
           b.testBit 4, b.testBit 5, b.testBit 6, b.testBit 7] := by
      simp only [bitsOfByte, testBit_xor_two_pow, List.cons_append, List.nil_append]
      norm_num
    show List.foldl crcBitStep c (bitsOfByte (b ^^^ 2 ^ 1)) ≠
      List.foldl crcBitStep c (bitsOfByte b)
    rw [e1]
    exact crcBitsFold_flip _ _ c (b.testBit 1) hc
  · have e1 : bitsOfByte (b ^^^ 2 ^ 2)
        = [b.testBit 0, b.testBit 1] ++ (!(b.testBit 2)) :: [b.testBit 3,
           b.testBit 4, b.testBit 5, b.testBit 6, b.testBit 7] := by
      simp only [bitsOfByte, testBit_xor_two_pow, List.cons_append, List.nil_append]
      norm_num
    show List.foldl crcBitStep c (bitsOfByte (b ^^^ 2 ^ 2)) ≠
      List.foldl crcBitStep c (bitsOfByte b)
    rw [e1]
    exact crcBitsFold_flip _ _ c (b.testBit 2) hc
  · have e1 : bitsOfByte (b ^^^ 2 ^ 3)
        = [b.testBit 0, b.testBit 1, b.testBit 2] ++ (!(b.testBit 3)) ::
           [b.testBit 4, b.testBit 5, b.testBit 6, b.testBit 7] := by
      simp only [bitsOfByte, testBit_xor_two_pow, List.cons_append, List.nil_append]
      norm_num
    show List.foldl crcBitStep c (bitsOfByte (b ^^^ 2 ^ 3)) ≠
      List.foldl crcBitStep c (bitsOfByte b)
    rw [e1]
    exact crcBitsFold_flip _ _ c (b.testBit 3) hc
  · have e1 : bitsOfByte (b ^^^ 2 ^ 4)
        = [b.testBit 0, b.testBit 1, b.testBit 2, b.testBit 3] ++ (!(b.testBit 4)) ::
           [b.testBit 5, b.testBit 6, b.testBit 7] := by
      simp only [bitsOfByte, testBit_xor_two_pow, List.cons_append, List.nil_append]
      norm_num
    show List.foldl crcBitStep c (bitsOfByte (b ^^^ 2 ^ 4)) ≠
      List.foldl crcBitStep c (bitsOfByte b)
    rw [e1]
    exact crcBitsFold_flip _ _ c (b.testBit 4) hc
  · have e1 : bitsOfByte (b ^^^ 2 ^ 5)
        = [b.testBit 0, b.testBit 1, b.testBit 2, b.testBit 3, b.testBit 4] ++
           (!(b.testBit 5)) :: [b.testBit 6, b.testBit 7] := by
      simp only [bitsOfByte, testBit_xor_two_pow, List.cons_append, List.nil_append]
      norm_num
    show List.foldl crcBitStep c (bitsOfByte (b ^^^ 2 ^ 5)) ≠
      List.foldl crcBitStep c (bitsOfByte b)
    rw [e1]
    exact crcBitsFold_flip _ _ c (b.testBit 5) hc
  · have e1 : bitsOfByte (b ^^^ 2 ^ 6)
        = [b.testBit 0, b.testBit 1, b.testBit 2, b.testBit 3, b.testBit 4,
           b.testBit 5] ++ (!(b.testBit 6)) :: [b.testBit 7] := by
      simp only [bitsOfByte, testBit_xor_two_pow, List.cons_append, List.nil_append]
      norm_num
    show List.foldl crcBitStep c (bitsOfByte (b ^^^ 2 ^ 6)) ≠
      List.foldl crcBitStep c (bitsOfByte b)
    rw [e1]
    exact crcBitsFold_flip _ _ c (b.testBit 6) hc
  · have e1 : bitsOfByte (b ^^^ 2 ^ 7)
        = [b.testBit 0, b.testBit 1, b.testBit 2, b.testBit 3, b.testBit 4,
           b.testBit 5, b.testBit 6] ++ (!(b.testBit 7)) :: [] := by
      simp only [bitsOfByte, testBit_xor_two_pow, List.cons_append, List.nil_append]
      norm_num
    show List.foldl crcBitStep c (bitsOfByte (b ^^^ 2 ^ 7)) ≠
      List.foldl crcBitStep c (bitsOfByte b)
    rw [e1]
    exact crcBitsFold_flip _ _ c (b.testBit 7) hc

theorem crcBytesFold_lt : ∀ (l : List Nat) (c : Nat), c < 2 ^ 32 →
    List.foldl crcByteStep c l < 2 ^ 32 := by
  intro l
  induction l with
  | nil => intro c hc; simpa using hc
  | cons b t IH =>
    intro c hc
    simpa using IH (crcByteStep c b) (crcByteStep_lt hc b)

theorem crcBytesFold_ne : ∀ (l : List Nat) {c1 c2 : Nat}, c1 < 2 ^ 32 → c2 < 2 ^ 32 →
    c1 ≠ c2 → List.foldl crcByteStep c1 l ≠ List.foldl crcByteStep c2 l := by
  intro l
  induction l with
  | nil => intro c1 c2 _ _ hne; simpa using hne
  | cons b t IH =>
    intro c1 c2 h1 h2 hne
    simp only [List.foldl_cons]
    exact IH (crcByteStep_lt h1 b) (crcByteStep_lt h2 b) (crcByteStep_ne h1 h2 hne b)

theorem crcBytesFold_flip : ∀ (l : List Nat) (j : Nat) {k c : Nat},
    j < l.length → k < 8 → c < 2 ^ 32 →
    List.foldl crcByteStep c (l.set j (l.getD j 0 ^^^ 2 ^ k)) ≠
      List.foldl crcByteStep c l := by
  intro l
  induction l with
  | nil => intro j k c hj _ _; simp at hj
  | cons b t IH =>
    intro j k c hj hk hc
    cases j with
    | zero =>
      simp only [List.set_cons_zero, List.getD_cons_zero, List.foldl_cons]
      exact crcBytesFold_ne t (crcByteStep_lt hc _) (crcByteStep_lt hc _)
        (crcByteStep_flip hc hk)
    | succ j =>
      simp only [List.set_cons_succ, List.getD_cons_succ, List.foldl_cons]
      exact IH j (by simpa using hj) hk (crcByteStep_lt hc b)

theorem crc32_flip {l : List Nat} {p : Nat} (hp : p < 8 * l.length) :
    crc32 (flipByteBit l p) ≠ crc32 l := by
  intro h
  unfold crc32 crcFold at h
  unfold flipByteBit at h
  have h2 := xor_right_cancel h
  have hj : p / 8 < l.length := by omega
  exact crcBytesFold_flip l (p / 8) hj (by omega) (by decide) h2

/-! Lemmas about the byte reader and the digit formatters. -/

theorem readLE_set_of_lt : ∀ (w : Nat) (l : List Nat) (i x off : Nat), i < off →
    readLE (l.set i x) off w = readLE l off w := by
  intro w
  induction w with
  | zero => intro l i x off _; rfl
  | succ w IH =>
    intro l i x off h
    simp only [readLE]
    rw [IH l i x (off + 1) (by omega)]
    have hg : (l.set i x).getD off 0 = l.getD off 0 := by
      simp [List.getD_eq_getElem?_getD, List.getElem?_set_ne (show i ≠ off by omega)]
    rw [hg]

theorem getD_take_of_lt {l : List Nat} {n i : Nat} (h : i < n) :
    (l.take n).getD i 0 = l.getD i 0 := by
  simp [List.getD_eq_getElem?_getD, List.getElem?_take_of_lt h]

theorem decCharsAux_append : ∀ (fuel n : Nat) (acc : List Char),
    decCharsAux fuel n acc = decCharsAux fuel n [] ++ acc := by
  intro fuel
  induction fuel with
  | zero => intro n acc; simp [decCharsAux]
  | succ fuel IH =>
    intro n acc
    by_cases h : n < 10
    · simp [decCharsAux, h]
    · simp only [decCharsAux, if_neg h]
      rw [IH (n / 10) (printfDigit (n % 10) :: acc), IH (n / 10) [printfDigit (n % 10)]]
      simp

theorem printfDigit_val : ∀ d, d < 10 → (printfDigit d).toNat - 48 = d := by decide

theorem parseDec_decCharsAux : ∀ (fuel n : Nat), n < 10 ^ fuel → 0 < fuel →
    parseDecChars (decCharsAux fuel n []) = n := by
  intro fuel
  induction fuel with
  | zero => intro n _ h; omega
  | succ fuel IH =>
    intro n hn _
    by_cases h : n < 10
    · simp only [decCharsAux, if_pos h, parseDecChars, List.foldl_cons, List.foldl_nil,
        Nat.zero_mul, Nat.zero_add]
      exact printfDigit_val n h
    · have hf : 0 < fuel := by
        rcases Nat.eq_zero_or_pos fuel with h0 | h0
        · exfalso
          subst h0
          simp at hn
          omega
        · exact h0
      have hdiv : n / 10 < 10 ^ fuel := by
        rw [Nat.div_lt_iff_lt_mul (by omega)]
        calc n < 10 ^ (fuel + 1) := hn
          _ = 10 ^ fuel * 10 := by rw [Nat.pow_succ]
      simp only [decCharsAux, if_neg h]
      rw [decCharsAux_append]
      unfold parseDecChars
      rw [List.foldl_append]
      simp only [List.foldl_cons, List.foldl_nil]
      rw [show List.foldl (fun a c => a * 10 + (c.toNat - 48)) 0 (decCharsAux fuel (n / 10) [])
        = parseDecChars (decCharsAux fuel (n / 10) []) from rfl]
      rw [IH (n / 10) hdiv hf, printfDigit_val (n % 10) (by omega)]
      omega

theorem self_lt_ten_pow_succ (j : Nat) : j < 10 ^ (j + 1) :=
  lt_of_lt_of_le (Nat.lt_pow_self (by norm_num) j)
    (Nat.pow_le_pow_right (by norm_num) (by omega))

theorem printfU_inj {n m : Nat} (h : printfU n = printfU m) : n = m := by
  have hd : decCharsAux (n + 1) n [] = decCharsAux (m + 1) m [] := congrArg String.data h
  have e1 := parseDec_decCharsAux (n + 1) n (self_lt_ten_pow_succ n) (by omega)
  have e2 := parseDec_decCharsAux (m + 1) m (self_lt_ten_pow_succ m) (by omega)
  rw [← e1, ← e2, hd]

theorem printfDigit_ne_zero : ∀ d, d < 16 → 0 < d → printfDigit d ≠ '0' := by decide

theorem printfDigit_mem : ∀ d, d < 16 → printfDigit d ∈ hexDigitList := by decide

theorem hexCharsAux_head : ∀ (fuel n : Nat) (acc : List Char), n < 16 ^ fuel → 0 < n →
    ∃ c cs, hexCharsAux fuel n acc = c :: cs ∧ c ≠ '0' := by
  intro fuel
  induction fuel with
  | zero => intro n acc h _; omega
  | succ fuel IH =>
    intro n acc hn hpos
    by_cases h : n < 16
    · refine ⟨printfDigit n, acc, ?_, printfDigit_ne_zero n h hpos⟩
      simp [hexCharsAux, h]
    · have hdiv : n / 16 < 16 ^ fuel := by
        rw [Nat.div_lt_iff_lt_mul (by omega)]
        calc n < 16 ^ (fuel + 1) := hn
          _ = 16 ^ fuel * 16 := by rw [Nat.pow_succ]
      have hpos2 : 0 < n / 16 := Nat.div_pos (by omega) (by omega)
      simp only [hexCharsAux, if_neg h]
      exact IH (n / 16) _ hdiv hpos2

theorem hexCharsAux_mem : ∀ (fuel n : Nat) (acc : List Char),
    (∀ c ∈ acc, c ∈ hexDigitList) →
    ∀ c ∈ hexCharsAux fuel n acc, c ∈ hexDigitList := by
  intro fuel
  induction fuel with
  | zero => intro n acc hacc; simpa [hexCharsAux] using hacc
  | succ fuel IH =>
    intro n acc hacc c hc
    by_cases h : n < 16
    · simp only [hexCharsAux, if_pos h] at hc
      rcases List.mem_cons.mp hc with h1 | h1
      · subst h1
        exact printfDigit_mem n h
      · exact hacc c h1
    · simp only [hexCharsAux, if_neg h] at hc
      refine IH (n / 16) _ ?_ c hc
      intro c2 hc2
      rcases List.mem_cons.mp hc2 with h2 | h2
      · subst h2
        exact printfDigit_mem (n % 16) (by omega)
      · exact hacc c2 h2

theorem crcFold_replicate_zero_succ (n c : Nat) :
    crcFold c (List.replicate (n + 1) 0) = crcFold (crcByteStep c 0) (List.replicate n 0) :=
  rfl

theorem crcFold_zero147 : crcFold 4294967295 (List.replicate 147 0) = 1763015250 := by
  have s1 : crcByteStep 4294967295 0 = 771559538 := by decide
  have s2 : crcByteStep 771559538 0 = 3190222080 := by decide
  have s3 : crcByteStep 3190222080 0 = 12461805 := by decide
  have s4 : crcByteStep 12461805 0 = 3736805603 := by decide
  have s5 : crcByteStep 3736805603 0 = 970787042 := by decide
  have s6 : crcByteStep 970787042 0 = 1312644700 := by decide
  have s7 : crcByteStep 1312644700 0 = 1653809281 := by decide
  have s8 : crcByteStep 1653809281 0 = 2598183062 := by decide
  have s9 : crcByteStep 2598183062 0 = 435612497 := by decide
  have s10 : crcByteStep 435612497 0 = 477468553 := by decide
  have s11 : crcByteStep 477468553 0 = 2490912275 := by decide
  have s12 : crcByteStep 2490912275 0 = 2217359760 := by decide
  have s13 : crcByteStep 2217359760 0 = 4035688829 := by decide
  have s14 : crcByteStep 4035688829 0 = 776242744 := by decide
  have s15 : crcByteStep 776242744 0 = 674036760 := by decide
  have s16 : crcByteStep 674036760 0 = 323269802 := by decide
  have s17 : crcByteStep 323269802 0 = 907021890 := by decide
  have s18 : crcByteStep 907021890 0 = 2565091506 := by decide
  have s19 : crcByteStep 2565091506 0 = 636958352 := by decide
  have s20 : crcByteStep 636958352 0 = 4029310066 := by decide
  have s21 : crcByteStep 4029310066 0 = 3204135540 := by decide
  have s22 : crcByteStep 3204135540 0 = 1473662495 := by decide
  have s23 : crcByteStep 1473662495 0 = 2371869627 := by decide
  have s24 : crcByteStep 2371869627 0 = 1547580895 := by decide
  have s25 : crcByteStep 1547580895 0 = 372306288 := by decide
  have s26 : crcByteStep 372306288 0 = 1343439309 := by decide
  have s27 : crcByteStep 1343439309 0 = 3850743116 := by decide
  have s28 : crcByteStep 3850743116 0 = 2140112918 := by decide
  have s29 : crcByteStep 2140112918 0 = 4104862425 := by decide
  have s30 : crcByteStep 4104862425 0 = 4294689098 := by decide
  have s31 : crcByteStep 4294689098 0 = 2532725583 := by decide
  have s32 : crcByteStep 2532725583 0 = 3874859602 := by decide
  have s33 : crcByteStep 3874859602 0 = 2240005490 := by decide
  have s34 : crcByteStep 2240005490 0 = 3197014997 := by decide
  have s35 : crcByteStep 3197014997 0 = 4127697096 := by decide
  have s36 : crcByteStep 4127697096 0 = 2504609066 := by decide
  have s37 : crcByteStep 2504609066 0 = 3677257883 := by decide
  have s38 : crcByteStep 3677257883 0 = 1728472140 := by decide
  have s39 : crcByteStep 1728472140 0 = 2131561439 := by decide
  have s40 : crcByteStep 2131561439 0 = 370393678 := by decide
  have s41 : crcByteStep 370393678 0 = 2440200021 := by decide
  have s42 : crcByteStep 2440200021 0 = 462477060 := by decide
  have s43 : crcByteStep 462477060 0 = 125195470 := by decide
  have s44 : crcByteStep 125195470 0 = 2094766563 := by decide
  have s45 : crcByteStep 2094766563 0 = 964651099 := by decide
  have s46 : crcByteStep 964651099 0 = 4236310292 := by decide
  have s47 : crcByteStep 4236310292 0 = 438719626 := by decide
  have s48 : crcByteStep 438719626 0 = 225922154 := by decide
  have s49 : crcByteStep 225922154 0 = 2909470474 := by decide
  have s50 : crcByteStep 2909470474 0 = 3765994465 := by decide
  have s51 : crcByteStep 3765994465 0 = 3622677101 := by decide
  have s52 : crcByteStep 3622677101 0 = 869593167 := by decide
  have s53 : crcByteStep 869593167 0 = 3864037617 := by decide
  have s54 : crcByteStep 3864037617 0 = 3395064322 := by decide
  have s55 : crcByteStep 3395064322 0 = 4005838270 := by decide
  have s56 : crcByteStep 4005838270 0 = 741825206 := by decide
  have s57 : crcByteStep 741825206 0 = 573448675 := by decide
  have s58 : crcByteStep 573448675 0 = 958504419 := by decide
  have s59 : crcByteStep 958504419 0 = 960139871 := by decide
  have s60 : crcByteStep 960139871 0 = 4226643703 := by decide
  have s61 : crcByteStep 4226643703 0 = 589466313 := by decide
  have s62 : crcByteStep 589466313 0 = 3801831582 := by decide
  have s63 : crcByteStep 3801831582 0 = 391456027 := by decide
  have s64 : crcByteStep 391456027 0 = 2322767049 := by decide
  have s65 : crcByteStep 2322767049 0 = 3794929800 := by decide
  have s66 : crcByteStep 3794929800 0 = 3816896794 := by decide
  have s67 : crcByteStep 3816896794 0 = 4253120579 := by decide
  have s68 : crcByteStep 4253120579 0 = 4012413266 := by decide
  have s69 : crcByteStep 4012413266 0 = 2240419913 := by decide
  have s70 : crcByteStep 2240419913 0 = 260404012 := by decide
  have s71 : crcByteStep 260404012 0 = 853010832 := by decide
  have s72 : crcByteStep 853010832 0 = 4030547117 := by decide
  have s73 : crcByteStep 4030547117 0 = 2828526097 := by decide
  have s74 : crcByteStep 2828526097 0 = 1780004624 := by decide
  have s75 : crcByteStep 1780004624 0 = 501024979 := by decide
  have s76 : crcByteStep 501024979 0 = 533159526 := by decide
  have s77 : crcByteStep 533159526 0 = 2764964659 := by decide
  have s78 : crcByteStep 2764964659 0 = 3212095253 := by decide
  have s79 : crcByteStep 3212095253 0 = 1835176004 := by decide
  have s80 : crcByteStep 1835176004 0 = 1910302489 := by decide
  have s81 : crcByteStep 1910302489 0 = 1679455271 := by decide
  have s82 : crcByteStep 1679455271 0 = 2775494431 := by decide
  have s83 : crcByteStep 2775494431 0 = 2376950618 := by decide
  have s84 : crcByteStep 2376950618 0 = 2335380873 := by decide
  have s85 : crcByteStep 2335380873 0 = 2498693265 := by decide
  have s86 : crcByteStep 2498693265 0 = 2275167450 := by decide
  have s87 : crcByteStep 2275167450 0 = 1719773062 := by decide
  have s88 : crcByteStep 1719773062 0 = 79538098 := by decide
  have s89 : crcByteStep 79538098 0 = 627797767 := by decide
  have s90 : crcByteStep 627797767 0 = 2655125196 := by decide
  have s91 : crcByteStep 2655125196 0 = 2454507365 := by decide
  have s92 : crcByteStep 2454507365 0 = 1028315416 := by decide
  have s93 : crcByteStep 1028315416 0 = 324129423 := by decide
  have s94 : crcByteStep 324129423 0 = 2098515811 := by decide
  have s95 : crcByteStep 2098515811 0 = 3569755181 := by decide
  have s96 : crcByteStep 3569755181 0 = 1158388305 := by decide
  have s97 : crcByteStep 1158388305 0 = 472476408 := by decide
  have s98 : crcByteStep 472476408 0 = 3011138372 := by decide
  have s99 : crcByteStep 3011138372 0 = 1896021978 := by decide
  have s100 : crcByteStep 1896021978 0 = 1719089461 := by decide
  have s101 : crcByteStep 1719089461 0 = 1456845594 := by decide
  have s102 : crcByteStep 1456845594 0 = 4248054985 := by decide
  have s103 : crcByteStep 4248054985 0 = 3796192824 := by decide
  have s104 : crcByteStep 3796192824 0 = 685833680 := by decide
  have s105 : crcByteStep 685833680 0 = 2264609321 := by decide
  have s106 : crcByteStep 2264609321 0 = 1110729566 := by decide
  have s107 : crcByteStep 1110729566 0 = 2358331536 := by decide
  have s108 : crcByteStep 2358331536 0 = 4035117580 := by decide
  have s109 : crcByteStep 4035117580 0 = 155635497 := by decide
  have s110 : crcByteStep 155635497 0 = 1119608483 := by decide
  have s111 : crcByteStep 1119608483 0 = 1335708044 := by decide
  have s112 : crcByteStep 1335708044 0 = 3829486146 := by decide
  have s113 : crcByteStep 3829486146 0 = 2553700846 := by decide
  have s114 : crcByteStep 2553700846 0 = 1193998622 := by decide
  have s115 : crcByteStep 1193998622 0 = 4199028634 := by decide
  have s116 : crcByteStep 4199028634 0 = 270545485 := by decide
  have s117 : crcByteStep 270545485 0 = 142417183 := by decide
  have s118 : crcByteStep 142417183 0 = 2365616360 := by decide
  have s119 : crcByteStep 2365616360 0 = 2925292090 := by decide
  have s120 : crcByteStep 2925292090 0 = 3332539864 := by decide
  have s121 : crcByteStep 3332539864 0 = 2295265379 := by decide
  have s122 : crcByteStep 2295265379 0 = 3560177178 := by decide
  have s123 : crcByteStep 3560177178 0 = 4256615044 := by decide
  have s124 : crcByteStep 4256615044 0 = 3928551923 := by decide
  have s125 : crcByteStep 3928551923 0 = 610175831 := by decide
  have s126 : crcByteStep 610175831 0 = 4113275612 := by decide
  have s127 : crcByteStep 4113275612 0 = 2408625509 := by decide
  have s128 : crcByteStep 2408625509 0 = 1029113186 := by decide
  have s129 : crcByteStep 1029113186 0 = 2743162737 := by decide
  have s130 : crcByteStep 2743162737 0 = 664912125 := by decide
  have s131 : crcByteStep 664912125 0 = 3274387297 := by decide
  have s132 : crcByteStep 3274387297 0 = 980843233 := by decide
  have s133 : crcByteStep 980843233 0 = 3610748052 := by decide
  have s134 : crcByteStep 3610748052 0 = 4155859193 := by decide
  have s135 : crcByteStep 4155859193 0 = 3298230232 := by decide
  have s136 : crcByteStep 3298230232 0 = 2295122969 := by decide
  have s137 : crcByteStep 2295122969 0 = 1692623884 := by decide
  have s138 : crcByteStep 1692623884 0 = 164802383 := by decide
  have s139 : crcByteStep 164802383 0 = 3865743022 := by decide
  have s140 : crcByteStep 3865743022 0 = 831054945 := by decide
  have s141 : crcByteStep 831054945 0 = 981784874 := by decide
  have s142 : crcByteStep 981784874 0 = 3682684175 := by decide
  have s143 : crcByteStep 3682684175 0 = 2422512860 := by decide
  have s144 : crcByteStep 2422512860 0 = 2415262307 := by decide
  have s145 : crcByteStep 2415262307 0 = 3560228120 := by decide
  have s146 : crcByteStep 3560228120 0 = 330869907 := by decide
  have s147 : crcByteStep 330869907 0 = 1763015250 := by decide
  calc crcFold 4294967295 (List.replicate 147 0)
    _ = crcFold (crcByteStep 4294967295 0) (List.replicate 146 0) := crcFold_replicate_zero_succ 146 4294967295
    _ = crcFold 771559538 (List.replicate 146 0) := by rw [s1]
    _ = crcFold (crcByteStep 771559538 0) (List.replicate 145 0) := crcFold_replicate_zero_succ 145 771559538
    _ = crcFold 3190222080 (List.replicate 145 0) := by rw [s2]
    _ = crcFold (crcByteStep 3190222080 0) (List.replicate 144 0) := crcFold_replicate_zero_succ 144 3190222080
    _ = crcFold 12461805 (List.replicate 144 0) := by rw [s3]
    _ = crcFold (crcByteStep 12461805 0) (List.replicate 143 0) := crcFold_replicate_zero_succ 143 12461805
    _ = crcFold 3736805603 (List.replicate 143 0) := by rw [s4]
    _ = crcFold (crcByteStep 3736805603 0) (List.replicate 142 0) := crcFold_replicate_zero_succ 142 3736805603
    _ = crcFold 970787042 (List.replicate 142 0) := by rw [s5]
    _ = crcFold (crcByteStep 970787042 0) (List.replicate 141 0) := crcFold_replicate_zero_succ 141 970787042
    _ = crcFold 1312644700 (List.replicate 141 0) := by rw [s6]
    _ = crcFold (crcByteStep 1312644700 0) (List.replicate 140 0) := crcFold_replicate_zero_succ 140 1312644700
    _ = crcFold 1653809281 (List.replicate 140 0) := by rw [s7]
    _ = crcFold (crcByteStep 1653809281 0) (List.replicate 139 0) := crcFold_replicate_zero_succ 139 1653809281
    _ = crcFold 2598183062 (List.replicate 139 0) := by rw [s8]
    _ = crcFold (crcByteStep 2598183062 0) (List.replicate 138 0) := crcFold_replicate_zero_succ 138 2598183062
    _ = crcFold 435612497 (List.replicate 138 0) := by rw [s9]
    _ = crcFold (crcByteStep 435612497 0) (List.replicate 137 0) := crcFold_replicate_zero_succ 137 435612497
    _ = crcFold 477468553 (List.replicate 137 0) := by rw [s10]
    _ = crcFold (crcByteStep 477468553 0) (List.replicate 136 0) := crcFold_replicate_zero_succ 136 477468553
    _ = crcFold 2490912275 (List.replicate 136 0) := by rw [s11]
    _ = crcFold (crcByteStep 2490912275 0) (List.replicate 135 0) := crcFold_replicate_zero_succ 135 2490912275
    _ = crcFold 2217359760 (List.replicate 135 0) := by rw [s12]
    _ = crcFold (crcByteStep 2217359760 0) (List.replicate 134 0) := crcFold_replicate_zero_succ 134 2217359760
    _ = crcFold 4035688829 (List.replicate 134 0) := by rw [s13]
    _ = crcFold (crcByteStep 4035688829 0) (List.replicate 133 0) := crcFold_replicate_zero_succ 133 4035688829
    _ = crcFold 776242744 (List.replicate 133 0) := by rw [s14]
    _ = crcFold (crcByteStep 776242744 0) (List.replicate 132 0) := crcFold_replicate_zero_succ 132 776242744
    _ = crcFold 674036760 (List.replicate 132 0) := by rw [s15]
    _ = crcFold (crcByteStep 674036760 0) (List.replicate 131 0) := crcFold_replicate_zero_succ 131 674036760
    _ = crcFold 323269802 (List.replicate 131 0) := by rw [s16]
    _ = crcFold (crcByteStep 323269802 0) (List.replicate 130 0) := crcFold_replicate_zero_succ 130 323269802
    _ = crcFold 907021890 (List.replicate 130 0) := by rw [s17]
    _ = crcFold (crcByteStep 907021890 0) (List.replicate 129 0) := crcFold_replicate_zero_succ 129 907021890
    _ = crcFold 2565091506 (List.replicate 129 0) := by rw [s18]
    _ = crcFold (crcByteStep 2565091506 0) (List.replicate 128 0) := crcFold_replicate_zero_succ 128 2565091506
    _ = crcFold 636958352 (List.replicate 128 0) := by rw [s19]
    _ = crcFold (crcByteStep 636958352 0) (List.replicate 127 0) := crcFold_replicate_zero_succ 127 636958352
    _ = crcFold 4029310066 (List.replicate 127 0) := by rw [s20]
    _ = crcFold (crcByteStep 4029310066 0) (List.replicate 126 0) := crcFold_replicate_zero_succ 126 4029310066
    _ = crcFold 3204135540 (List.replicate 126 0) := by rw [s21]
    _ = crcFold (crcByteStep 3204135540 0) (List.replicate 125 0) := crcFold_replicate_zero_succ 125 3204135540
    _ = crcFold 1473662495 (List.replicate 125 0) := by rw [s22]
    _ = crcFold (crcByteStep 1473662495 0) (List.replicate 124 0) := crcFold_replicate_zero_succ 124 1473662495
    _ = crcFold 2371869627 (List.replicate 124 0) := by rw [s23]
    _ = crcFold (crcByteStep 2371869627 0) (List.replicate 123 0) := crcFold_replicate_zero_succ 123 2371869627
    _ = crcFold 1547580895 (List.replicate 123 0) := by rw [s24]
    _ = crcFold (crcByteStep 1547580895 0) (List.replicate 122 0) := crcFold_replicate_zero_succ 122 1547580895
    _ = crcFold 372306288 (List.replicate 122 0) := by rw [s25]
    _ = crcFold (crcByteStep 372306288 0) (List.replicate 121 0) := crcFold_replicate_zero_succ 121 372306288
    _ = crcFold 1343439309 (List.replicate 121 0) := by rw [s26]
    _ = crcFold (crcByteStep 1343439309 0) (List.replicate 120 0) := crcFold_replicate_zero_succ 120 1343439309
    _ = crcFold 3850743116 (List.replicate 120 0) := by rw [s27]
    _ = crcFold (crcByteStep 3850743116 0) (List.replicate 119 0) := crcFold_replicate_zero_succ 119 3850743116
    _ = crcFold 2140112918 (List.replicate 119 0) := by rw [s28]
    _ = crcFold (crcByteStep 2140112918 0) (List.replicate 118 0) := crcFold_replicate_zero_succ 118 2140112918
    _ = crcFold 4104862425 (List.replicate 118 0) := by rw [s29]
    _ = crcFold (crcByteStep 4104862425 0) (List.replicate 117 0) := crcFold_replicate_zero_succ 117 4104862425
    _ = crcFold 4294689098 (List.replicate 117 0) := by rw [s30]
    _ = crcFold (crcByteStep 4294689098 0) (List.replicate 116 0) := crcFold_replicate_zero_succ 116 4294689098
    _ = crcFold 2532725583 (List.replicate 116 0) := by rw [s31]
    _ = crcFold (crcByteStep 2532725583 0) (List.replicate 115 0) := crcFold_replicate_zero_succ 115 2532725583
    _ = crcFold 3874859602 (List.replicate 115 0) := by rw [s32]
    _ = crcFold (crcByteStep 3874859602 0) (List.replicate 114 0) := crcFold_replicate_zero_succ 114 3874859602
    _ = crcFold 2240005490 (List.replicate 114 0) := by rw [s33]
    _ = crcFold (crcByteStep 2240005490 0) (List.replicate 113 0) := crcFold_replicate_zero_succ 113 2240005490
    _ = crcFold 3197014997 (List.replicate 113 0) := by rw [s34]
    _ = crcFold (crcByteStep 3197014997 0) (List.replicate 112 0) := crcFold_replicate_zero_succ 112 3197014997
    _ = crcFold 4127697096 (List.replicate 112 0) := by rw [s35]
    _ = crcFold (crcByteStep 4127697096 0) (List.replicate 111 0) := crcFold_replicate_zero_succ 111 4127697096
    _ = crcFold 2504609066 (List.replicate 111 0) := by rw [s36]
    _ = crcFold (crcByteStep 2504609066 0) (List.replicate 110 0) := crcFold_replicate_zero_succ 110 2504609066
    _ = crcFold 3677257883 (List.replicate 110 0) := by rw [s37]
    _ = crcFold (crcByteStep 3677257883 0) (List.replicate 109 0) := crcFold_replicate_zero_succ 109 3677257883
    _ = crcFold 1728472140 (List.replicate 109 0) := by rw [s38]
    _ = crcFold (crcByteStep 1728472140 0) (List.replicate 108 0) := crcFold_replicate_zero_succ 108 1728472140
    _ = crcFold 2131561439 (List.replicate 108 0) := by rw [s39]
    _ = crcFold (crcByteStep 2131561439 0) (List.replicate 107 0) := crcFold_replicate_zero_succ 107 2131561439
    _ = crcFold 370393678 (List.replicate 107 0) := by rw [s40]
    _ = crcFold (crcByteStep 370393678 0) (List.replicate 106 0) := crcFold_replicate_zero_succ 106 370393678
    _ = crcFold 2440200021 (List.replicate 106 0) := by rw [s41]
    _ = crcFold (crcByteStep 2440200021 0) (List.replicate 105 0) := crcFold_replicate_zero_succ 105 2440200021
    _ = crcFold 462477060 (List.replicate 105 0) := by rw [s42]
    _ = crcFold (crcByteStep 462477060 0) (List.replicate 104 0) := crcFold_replicate_zero_succ 104 462477060
    _ = crcFold 125195470 (List.replicate 104 0) := by rw [s43]
    _ = crcFold (crcByteStep 125195470 0) (List.replicate 103 0) := crcFold_replicate_zero_succ 103 125195470
    _ = crcFold 2094766563 (List.replicate 103 0) := by rw [s44]
    _ = crcFold (crcByteStep 2094766563 0) (List.replicate 102 0) := crcFold_replicate_zero_succ 102 2094766563
    _ = crcFold 964651099 (List.replicate 102 0) := by rw [s45]
    _ = crcFold (crcByteStep 964651099 0) (List.replicate 101 0) := crcFold_replicate_zero_succ 101 964651099
    _ = crcFold 4236310292 (List.replicate 101 0) := by rw [s46]
    _ = crcFold (crcByteStep 4236310292 0) (List.replicate 100 0) := crcFold_replicate_zero_succ 100 4236310292
    _ = crcFold 438719626 (List.replicate 100 0) := by rw [s47]
    _ = crcFold (crcByteStep 438719626 0) (List.replicate 99 0) := crcFold_replicate_zero_succ 99 438719626
    _ = crcFold 225922154 (List.replicate 99 0) := by rw [s48]
    _ = crcFold (crcByteStep 225922154 0) (List.replicate 98 0) := crcFold_replicate_zero_succ 98 225922154
    _ = crcFold 2909470474 (List.replicate 98 0) := by rw [s49]
    _ = crcFold (crcByteStep 2909470474 0) (List.replicate 97 0) := crcFold_replicate_zero_succ 97 2909470474
    _ = crcFold 3765994465 (List.replicate 97 0) := by rw [s50]
    _ = crcFold (crcByteStep 3765994465 0) (List.replicate 96 0) := crcFold_replicate_zero_succ 96 3765994465
    _ = crcFold 3622677101 (List.replicate 96 0) := by rw [s51]
    _ = crcFold (crcByteStep 3622677101 0) (List.replicate 95 0) := crcFold_replicate_zero_succ 95 3622677101
    _ = crcFold 869593167 (List.replicate 95 0) := by rw [s52]
    _ = crcFold (crcByteStep 869593167 0) (List.replicate 94 0) := crcFold_replicate_zero_succ 94 869593167
    _ = crcFold 3864037617 (List.replicate 94 0) := by rw [s53]
    _ = crcFold (crcByteStep 3864037617 0) (List.replicate 93 0) := crcFold_replicate_zero_succ 93 3864037617
    _ = crcFold 3395064322 (List.replicate 93 0) := by rw [s54]
    _ = crcFold (crcByteStep 3395064322 0) (List.replicate 92 0) := crcFold_replicate_zero_succ 92 3395064322
    _ = crcFold 4005838270 (List.replicate 92 0) := by rw [s55]
    _ = crcFold (crcByteStep 4005838270 0) (List.replicate 91 0) := crcFold_replicate_zero_succ 91 4005838270
    _ = crcFold 741825206 (List.replicate 91 0) := by rw [s56]
    _ = crcFold (crcByteStep 741825206 0) (List.replicate 90 0) := crcFold_replicate_zero_succ 90 741825206
    _ = crcFold 573448675 (List.replicate 90 0) := by rw [s57]
    _ = crcFold (crcByteStep 573448675 0) (List.replicate 89 0) := crcFold_replicate_zero_succ 89 573448675
    _ = crcFold 958504419 (List.replicate 89 0) := by rw [s58]
    _ = crcFold (crcByteStep 958504419 0) (List.replicate 88 0) := crcFold_replicate_zero_succ 88 958504419
    _ = crcFold 960139871 (List.replicate 88 0) := by rw [s59]
    _ = crcFold (crcByteStep 960139871 0) (List.replicate 87 0) := crcFold_replicate_zero_succ 87 960139871
    _ = crcFold 4226643703 (List.replicate 87 0) := by rw [s60]
    _ = crcFold (crcByteStep 4226643703 0) (List.replicate 86 0) := crcFold_replicate_zero_succ 86 4226643703
    _ = crcFold 589466313 (List.replicate 86 0) := by rw [s61]
    _ = crcFold (crcByteStep 589466313 0) (List.replicate 85 0) := crcFold_replicate_zero_succ 85 589466313
    _ = crcFold 3801831582 (List.replicate 85 0) := by rw [s62]
    _ = crcFold (crcByteStep 3801831582 0) (List.replicate 84 0) := crcFold_replicate_zero_succ 84 3801831582
    _ = crcFold 391456027 (List.replicate 84 0) := by rw [s63]
    _ = crcFold (crcByteStep 391456027 0) (List.replicate 83 0) := crcFold_replicate_zero_succ 83 391456027
    _ = crcFold 2322767049 (List.replicate 83 0) := by rw [s64]
    _ = crcFold (crcByteStep 2322767049 0) (List.replicate 82 0) := crcFold_replicate_zero_succ 82 2322767049
    _ = crcFold 3794929800 (List.replicate 82 0) := by rw [s65]
    _ = crcFold (crcByteStep 3794929800 0) (List.replicate 81 0) := crcFold_replicate_zero_succ 81 3794929800
    _ = crcFold 3816896794 (List.replicate 81 0) := by rw [s66]
    _ = crcFold (crcByteStep 3816896794 0) (List.replicate 80 0) := crcFold_replicate_zero_succ 80 3816896794
    _ = crcFold 4253120579 (List.replicate 80 0) := by rw [s67]
    _ = crcFold (crcByteStep 4253120579 0) (List.replicate 79 0) := crcFold_replicate_zero_succ 79 4253120579
    _ = crcFold 4012413266 (List.replicate 79 0) := by rw [s68]
    _ = crcFold (crcByteStep 4012413266 0) (List.replicate 78 0) := crcFold_replicate_zero_succ 78 4012413266
    _ = crcFold 2240419913 (List.replicate 78 0) := by rw [s69]
    _ = crcFold (crcByteStep 2240419913 0) (List.replicate 77 0) := crcFold_replicate_zero_succ 77 2240419913
    _ = crcFold 260404012 (List.replicate 77 0) := by rw [s70]
    _ = crcFold (crcByteStep 260404012 0) (List.replicate 76 0) := crcFold_replicate_zero_succ 76 260404012
    _ = crcFold 853010832 (List.replicate 76 0) := by rw [s71]
    _ = crcFold (crcByteStep 853010832 0) (List.replicate 75 0) := crcFold_replicate_zero_succ 75 853010832
    _ = crcFold 4030547117 (List.replicate 75 0) := by rw [s72]
    _ = crcFold (crcByteStep 4030547117 0) (List.replicate 74 0) := crcFold_replicate_zero_succ 74 4030547117
    _ = crcFold 2828526097 (List.replicate 74 0) := by rw [s73]
    _ = crcFold (crcByteStep 2828526097 0) (List.replicate 73 0) := crcFold_replicate_zero_succ 73 2828526097
    _ = crcFold 1780004624 (List.replicate 73 0) := by rw [s74]
    _ = crcFold (crcByteStep 1780004624 0) (List.replicate 72 0) := crcFold_replicate_zero_succ 72 1780004624
    _ = crcFold 501024979 (List.replicate 72 0) := by rw [s75]
    _ = crcFold (crcByteStep 501024979 0) (List.replicate 71 0) := crcFold_replicate_zero_succ 71 501024979
    _ = crcFold 533159526 (List.replicate 71 0) := by rw [s76]
    _ = crcFold (crcByteStep 533159526 0) (List.replicate 70 0) := crcFold_replicate_zero_succ 70 533159526
    _ = crcFold 2764964659 (List.replicate 70 0) := by rw [s77]
    _ = crcFold (crcByteStep 2764964659 0) (List.replicate 69 0) := crcFold_replicate_zero_succ 69 2764964659
    _ = crcFold 3212095253 (List.replicate 69 0) := by rw [s78]
    _ = crcFold (crcByteStep 3212095253 0) (List.replicate 68 0) := crcFold_replicate_zero_succ 68 3212095253
    _ = crcFold 1835176004 (List.replicate 68 0) := by rw [s79]
    _ = crcFold (crcByteStep 1835176004 0) (List.replicate 67 0) := crcFold_replicate_zero_succ 67 1835176004
    _ = crcFold 1910302489 (List.replicate 67 0) := by rw [s80]
    _ = crcFold (crcByteStep 1910302489 0) (List.replicate 66 0) := crcFold_replicate_zero_succ 66 1910302489
    _ = crcFold 1679455271 (List.replicate 66 0) := by rw [s81]
    _ = crcFold (crcByteStep 1679455271 0) (List.replicate 65 0) := crcFold_replicate_zero_succ 65 1679455271
    _ = crcFold 2775494431 (List.replicate 65 0) := by rw [s82]
    _ = crcFold (crcByteStep 2775494431 0) (List.replicate 64 0) := crcFold_replicate_zero_succ 64 2775494431
    _ = crcFold 2376950618 (List.replicate 64 0) := by rw [s83]
    _ = crcFold (crcByteStep 2376950618 0) (List.replicate 63 0) := crcFold_replicate_zero_succ 63 2376950618
    _ = crcFold 2335380873 (List.replicate 63 0) := by rw [s84]
    _ = crcFold (crcByteStep 2335380873 0) (List.replicate 62 0) := crcFold_replicate_zero_succ 62 2335380873
    _ = crcFold 2498693265 (List.replicate 62 0) := by rw [s85]
    _ = crcFold (crcByteStep 2498693265 0) (List.replicate 61 0) := crcFold_replicate_zero_succ 61 2498693265
    _ = crcFold 2275167450 (List.replicate 61 0) := by rw [s86]
    _ = crcFold (crcByteStep 2275167450 0) (List.replicate 60 0) := crcFold_replicate_zero_succ 60 2275167450
    _ = crcFold 1719773062 (List.replicate 60 0) := by rw [s87]
    _ = crcFold (crcByteStep 1719773062 0) (List.replicate 59 0) := crcFold_replicate_zero_succ 59 1719773062
    _ = crcFold 79538098 (List.replicate 59 0) := by rw [s88]
    _ = crcFold (crcByteStep 79538098 0) (List.replicate 58 0) := crcFold_replicate_zero_succ 58 79538098
    _ = crcFold 627797767 (List.replicate 58 0) := by rw [s89]
    _ = crcFold (crcByteStep 627797767 0) (List.replicate 57 0) := crcFold_replicate_zero_succ 57 627797767
    _ = crcFold 2655125196 (List.replicate 57 0) := by rw [s90]
    _ = crcFold (crcByteStep 2655125196 0) (List.replicate 56 0) := crcFold_replicate_zero_succ 56 2655125196
    _ = crcFold 2454507365 (List.replicate 56 0) := by rw [s91]
    _ = crcFold (crcByteStep 2454507365 0) (List.replicate 55 0) := crcFold_replicate_zero_succ 55 2454507365
    _ = crcFold 1028315416 (List.replicate 55 0) := by rw [s92]
    _ = crcFold (crcByteStep 1028315416 0) (List.replicate 54 0) := crcFold_replicate_zero_succ 54 1028315416
    _ = crcFold 324129423 (List.replicate 54 0) := by rw [s93]
    _ = crcFold (crcByteStep 324129423 0) (List.replicate 53 0) := crcFold_replicate_zero_succ 53 324129423
    _ = crcFold 2098515811 (List.replicate 53 0) := by rw [s94]
    _ = crcFold (crcByteStep 2098515811 0) (List.replicate 52 0) := crcFold_replicate_zero_succ 52 2098515811
    _ = crcFold 3569755181 (List.replicate 52 0) := by rw [s95]
    _ = crcFold (crcByteStep 3569755181 0) (List.replicate 51 0) := crcFold_replicate_zero_succ 51 3569755181
    _ = crcFold 1158388305 (List.replicate 51 0) := by rw [s96]
    _ = crcFold (crcByteStep 1158388305 0) (List.replicate 50 0) := crcFold_replicate_zero_succ 50 1158388305
    _ = crcFold 472476408 (List.replicate 50 0) := by rw [s97]
    _ = crcFold (crcByteStep 472476408 0) (List.replicate 49 0) := crcFold_replicate_zero_succ 49 472476408
    _ = crcFold 3011138372 (List.replicate 49 0) := by rw [s98]
    _ = crcFold (crcByteStep 3011138372 0) (List.replicate 48 0) := crcFold_replicate_zero_succ 48 3011138372
    _ = crcFold 1896021978 (List.replicate 48 0) := by rw [s99]
    _ = crcFold (crcByteStep 1896021978 0) (List.replicate 47 0) := crcFold_replicate_zero_succ 47 1896021978
    _ = crcFold 1719089461 (List.replicate 47 0) := by rw [s100]
    _ = crcFold (crcByteStep 1719089461 0) (List.replicate 46 0) := crcFold_replicate_zero_succ 46 1719089461
    _ = crcFold 1456845594 (List.replicate 46 0) := by rw [s101]
    _ = crcFold (crcByteStep 1456845594 0) (List.replicate 45 0) := crcFold_replicate_zero_succ 45 1456845594
    _ = crcFold 4248054985 (List.replicate 45 0) := by rw [s102]
    _ = crcFold (crcByteStep 4248054985 0) (List.replicate 44 0) := crcFold_replicate_zero_succ 44 4248054985
    _ = crcFold 3796192824 (List.replicate 44 0) := by rw [s103]
    _ = crcFold (crcByteStep 3796192824 0) (List.replicate 43 0) := crcFold_replicate_zero_succ 43 3796192824
    _ = crcFold 685833680 (List.replicate 43 0) := by rw [s104]
    _ = crcFold (crcByteStep 685833680 0) (List.replicate 42 0) := crcFold_replicate_zero_succ 42 685833680
    _ = crcFold 2264609321 (List.replicate 42 0) := by rw [s105]
    _ = crcFold (crcByteStep 2264609321 0) (List.replicate 41 0) := crcFold_replicate_zero_succ 41 2264609321
    _ = crcFold 1110729566 (List.replicate 41 0) := by rw [s106]
    _ = crcFold (crcByteStep 1110729566 0) (List.replicate 40 0) := crcFold_replicate_zero_succ 40 1110729566
    _ = crcFold 2358331536 (List.replicate 40 0) := by rw [s107]
    _ = crcFold (crcByteStep 2358331536 0) (List.replicate 39 0) := crcFold_replicate_zero_succ 39 2358331536
    _ = crcFold 4035117580 (List.replicate 39 0) := by rw [s108]
    _ = crcFold (crcByteStep 4035117580 0) (List.replicate 38 0) := crcFold_replicate_zero_succ 38 4035117580
    _ = crcFold 155635497 (List.replicate 38 0) := by rw [s109]
    _ = crcFold (crcByteStep 155635497 0) (List.replicate 37 0) := crcFold_replicate_zero_succ 37 155635497
    _ = crcFold 1119608483 (List.replicate 37 0) := by rw [s110]
    _ = crcFold (crcByteStep 1119608483 0) (List.replicate 36 0) := crcFold_replicate_zero_succ 36 1119608483
    _ = crcFold 1335708044 (List.replicate 36 0) := by rw [s111]
    _ = crcFold (crcByteStep 1335708044 0) (List.replicate 35 0) := crcFold_replicate_zero_succ 35 1335708044
    _ = crcFold 3829486146 (List.replicate 35 0) := by rw [s112]
    _ = crcFold (crcByteStep 3829486146 0) (List.replicate 34 0) := crcFold_replicate_zero_succ 34 3829486146
    _ = crcFold 2553700846 (List.replicate 34 0) := by rw [s113]
    _ = crcFold (crcByteStep 2553700846 0) (List.replicate 33 0) := crcFold_replicate_zero_succ 33 2553700846
    _ = crcFold 1193998622 (List.replicate 33 0) := by rw [s114]
    _ = crcFold (crcByteStep 1193998622 0) (List.replicate 32 0) := crcFold_replicate_zero_succ 32 1193998622
    _ = crcFold 4199028634 (List.replicate 32 0) := by rw [s115]
    _ = crcFold (crcByteStep 4199028634 0) (List.replicate 31 0) := crcFold_replicate_zero_succ 31 4199028634
    _ = crcFold 270545485 (List.replicate 31 0) := by rw [s116]
    _ = crcFold (crcByteStep 270545485 0) (List.replicate 30 0) := crcFold_replicate_zero_succ 30 270545485
    _ = crcFold 142417183 (List.replicate 30 0) := by rw [s117]
    _ = crcFold (crcByteStep 142417183 0) (List.replicate 29 0) := crcFold_replicate_zero_succ 29 142417183
    _ = crcFold 2365616360 (List.replicate 29 0) := by rw [s118]
    _ = crcFold (crcByteStep 2365616360 0) (List.replicate 28 0) := crcFold_replicate_zero_succ 28 2365616360
    _ = crcFold 2925292090 (List.replicate 28 0) := by rw [s119]
    _ = crcFold (crcByteStep 2925292090 0) (List.replicate 27 0) := crcFold_replicate_zero_succ 27 2925292090
    _ = crcFold 3332539864 (List.replicate 27 0) := by rw [s120]
    _ = crcFold (crcByteStep 3332539864 0) (List.replicate 26 0) := crcFold_replicate_zero_succ 26 3332539864
    _ = crcFold 2295265379 (List.replicate 26 0) := by rw [s121]
    _ = crcFold (crcByteStep 2295265379 0) (List.replicate 25 0) := crcFold_replicate_zero_succ 25 2295265379
    _ = crcFold 3560177178 (List.replicate 25 0) := by rw [s122]
    _ = crcFold (crcByteStep 3560177178 0) (List.replicate 24 0) := crcFold_replicate_zero_succ 24 3560177178
    _ = crcFold 4256615044 (List.replicate 24 0) := by rw [s123]
    _ = crcFold (crcByteStep 4256615044 0) (List.replicate 23 0) := crcFold_replicate_zero_succ 23 4256615044
    _ = crcFold 3928551923 (List.replicate 23 0) := by rw [s124]
    _ = crcFold (crcByteStep 3928551923 0) (List.replicate 22 0) := crcFold_replicate_zero_succ 22 3928551923
    _ = crcFold 610175831 (List.replicate 22 0) := by rw [s125]
    _ = crcFold (crcByteStep 610175831 0) (List.replicate 21 0) := crcFold_replicate_zero_succ 21 610175831
    _ = crcFold 4113275612 (List.replicate 21 0) := by rw [s126]
    _ = crcFold (crcByteStep 4113275612 0) (List.replicate 20 0) := crcFold_replicate_zero_succ 20 4113275612
    _ = crcFold 2408625509 (List.replicate 20 0) := by rw [s127]
    _ = crcFold (crcByteStep 2408625509 0) (List.replicate 19 0) := crcFold_replicate_zero_succ 19 2408625509
    _ = crcFold 1029113186 (List.replicate 19 0) := by rw [s128]
    _ = crcFold (crcByteStep 1029113186 0) (List.replicate 18 0) := crcFold_replicate_zero_succ 18 1029113186
    _ = crcFold 2743162737 (List.replicate 18 0) := by rw [s129]
    _ = crcFold (crcByteStep 2743162737 0) (List.replicate 17 0) := crcFold_replicate_zero_succ 17 2743162737
    _ = crcFold 664912125 (List.replicate 17 0) := by rw [s130]
    _ = crcFold (crcByteStep 664912125 0) (List.replicate 16 0) := crcFold_replicate_zero_succ 16 664912125
    _ = crcFold 3274387297 (List.replicate 16 0) := by rw [s131]
    _ = crcFold (crcByteStep 3274387297 0) (List.replicate 15 0) := crcFold_replicate_zero_succ 15 3274387297
    _ = crcFold 980843233 (List.replicate 15 0) := by rw [s132]
    _ = crcFold (crcByteStep 980843233 0) (List.replicate 14 0) := crcFold_replicate_zero_succ 14 980843233
    _ = crcFold 3610748052 (List.replicate 14 0) := by rw [s133]
    _ = crcFold (crcByteStep 3610748052 0) (List.replicate 13 0) := crcFold_replicate_zero_succ 13 3610748052
    _ = crcFold 4155859193 (List.replicate 13 0) := by rw [s134]
    _ = crcFold (crcByteStep 4155859193 0) (List.replicate 12 0) := crcFold_replicate_zero_succ 12 4155859193
    _ = crcFold 3298230232 (List.replicate 12 0) := by rw [s135]
    _ = crcFold (crcByteStep 3298230232 0) (List.replicate 11 0) := crcFold_replicate_zero_succ 11 3298230232
    _ = crcFold 2295122969 (List.replicate 11 0) := by rw [s136]
    _ = crcFold (crcByteStep 2295122969 0) (List.replicate 10 0) := crcFold_replicate_zero_succ 10 2295122969
    _ = crcFold 1692623884 (List.replicate 10 0) := by rw [s137]
    _ = crcFold (crcByteStep 1692623884 0) (List.replicate 9 0) := crcFold_replicate_zero_succ 9 1692623884
    _ = crcFold 164802383 (List.replicate 9 0) := by rw [s138]
    _ = crcFold (crcByteStep 164802383 0) (List.replicate 8 0) := crcFold_replicate_zero_succ 8 164802383
    _ = crcFold 3865743022 (List.replicate 8 0) := by rw [s139]
    _ = crcFold (crcByteStep 3865743022 0) (List.replicate 7 0) := crcFold_replicate_zero_succ 7 3865743022
    _ = crcFold 831054945 (List.replicate 7 0) := by rw [s140]
    _ = crcFold (crcByteStep 831054945 0) (List.replicate 6 0) := crcFold_replicate_zero_succ 6 831054945
    _ = crcFold 981784874 (List.replicate 6 0) := by rw [s141]
    _ = crcFold (crcByteStep 981784874 0) (List.replicate 5 0) := crcFold_replicate_zero_succ 5 981784874
    _ = crcFold 3682684175 (List.replicate 5 0) := by rw [s142]
    _ = crcFold (crcByteStep 3682684175 0) (List.replicate 4 0) := crcFold_replicate_zero_succ 4 3682684175
    _ = crcFold 2422512860 (List.replicate 4 0) := by rw [s143]
    _ = crcFold (crcByteStep 2422512860 0) (List.replicate 3 0) := crcFold_replicate_zero_succ 3 2422512860
    _ = crcFold 2415262307 (List.replicate 3 0) := by rw [s144]
    _ = crcFold (crcByteStep 2415262307 0) (List.replicate 2 0) := crcFold_replicate_zero_succ 2 2415262307
    _ = crcFold 3560228120 (List.replicate 2 0) := by rw [s145]
    _ = crcFold (crcByteStep 3560228120 0) (List.replicate 1 0) := crcFold_replicate_zero_succ 1 3560228120
    _ = crcFold 330869907 (List.replicate 1 0) := by rw [s146]
    _ = crcFold (crcByteStep 330869907 0) (List.replicate 0 0) := crcFold_replicate_zero_succ 0 330869907
    _ = crcFold 1763015250 (List.replicate 0 0) := by rw [s147]
    _ = 1763015250 := rfl

theorem crc32_replicate_zero147 : crc32 (List.replicate 147 0) = 2531952045 := by
  show crcFold 4294967295 (List.replicate 147 0) ^^^ 4294967295 = 2531952045
  rw [crcFold_zero147]
  decide
theorem zeroRecord_take : zeroRecord.take crcOffset = List.replicate 147 0 := by decide

theorem zeroRecord_crc_ok : crc32 (zeroRecord.take crcOffset) = readLE zeroRecord crcOffset 4 := by
  rw [zeroRecord_take, crc32_replicate_zero147]
  decide

/-! Claim theorems. -/

/-- C1: for every record whose stored checksum field equals the CRC-32
recomputed over the bytes preceding it, decoding succeeds and produces
exactly 30 (label, value) entries, with the labels verbatim and in the
fixed published order of the source table ("pg_control version number"
first through "Float8 argument passing" last). -/
theorem c1_valid_record_decodes (strfmtC : Nat → String) (bytes : List Nat)
    (hlen : sizeofControlFileData ≤ bytes.length)
    (hcrc : crc32 (bytes.take crcOffset) = readLE bytes crcOffset 4) :
    ∃ vals, get_controldata strfmtC (some bytes) = .ok vals ∧
      vals.length = 30 ∧ vals.map Prod.fst = controlDataNames := by
  refine ⟨formatControlData strfmtC (parseControlFileData bytes), ?_, rfl, rfl⟩
  have hcrc2 : crc32 (bytes.take crcOffset) = (parseControlFileData bytes).crc := hcrc
  simp only [get_controldata]
  rw [if_neg (Nat.not_lt.mpr hlen), if_neg (not_ne_iff.mpr hcrc2)]

/-- Witness for C1 at a concrete record: 147 zero bytes followed by
their correct stored CRC decode into the 30 named rows. -/
theorem c1_valid_record_decodes_witness :
    sizeofControlFileData ≤ zeroRecord.length ∧
      crc32 (zeroRecord.take crcOffset) = readLE zeroRecord crcOffset 4 ∧
      ∃ vals, get_controldata (fun _ => "") (some zeroRecord) = .ok vals ∧
        vals.length = 30 ∧ vals.map Prod.fst = controlDataNames :=
  ⟨by decide, zeroRecord_crc_ok,
    c1_valid_record_decodes (fun _ => "") zeroRecord (by decide) zeroRecord_crc_ok⟩

/-- C2: flipping any single bit at any bit position `p` before the
stored checksum field of a record (one whose stored checksum matches,
as the data model's invariant demands), while leaving the stored
checksum unchanged, makes the decode fail with the checksum error: the
recomputed CRC-32 no longer equals the stored value. -/
theorem c2_bitflip_checksum_error (strfmtC : Nat → String) (bytes : List Nat) (p : Nat)
    (hlen : sizeofControlFileData ≤ bytes.length)
    (hp : p < 8 * crcOffset)
    (hcrc : crc32 (bytes.take crcOffset) = readLE bytes crcOffset 4) :
    get_controldata strfmtC (some (flipByteBit bytes p)) = .error .checksumError := by
  have hpo : p < 1176 := hp
  have h151 : (151 : Nat) ≤ bytes.length := hlen
  have hdiv : p / 8 < 147 := by omega
  have hlen2 : sizeofControlFileData ≤ (flipByteBit bytes p).length := by
    unfold flipByteBit
    rw [List.length_set]
    exact hlen
  have hstored : readLE (flipByteBit bytes p) crcOffset 4 = readLE bytes crcOffset 4 := by
    unfold flipByteBit
    exact readLE_set_of_lt 4 bytes (p / 8) _ crcOffset hdiv
  have htake : (flipByteBit bytes p).take crcOffset = flipByteBit (bytes.take crcOffset) p := by
    unfold flipByteBit
    rw [List.set_take, getD_take_of_lt (show p / 8 < crcOffset from hdiv)]
  have hne : crc32 ((flipByteBit bytes p).take crcOffset) ≠
      (parseControlFileData (flipByteBit bytes p)).crc := by
    show crc32 ((flipByteBit bytes p).take crcOffset) ≠ readLE (flipByteBit bytes p) crcOffset 4
    rw [htake, hstored, ← hcrc]
    apply crc32_flip
    have hlt : (bytes.take crcOffset).length = 147 := by
      rw [List.length_take]
      show min 147 bytes.length = 147
      omega
    rw [hlt]
    omega
  simp only [get_controldata]
  rw [if_neg (Nat.not_lt.mpr hlen2), if_pos hne]

/-- Witness for C2 at a concrete record and bit position: flipping bit 5
of the zero record makes the decode fail with the checksum error. -/
theorem c2_bitflip_checksum_error_witness :
    get_controldata (fun _ => "") (some (flipByteBit zeroRecord 5)) =
      .error .checksumError :=
  c2_bitflip_checksum_error (fun _ => "") zeroRecord 5 (by decide) (by decide) zeroRecord_crc_ok

/-- C3: for every input file providing fewer bytes than the fixed record
size, the reader fails with the truncation read error; the formatting
stage is never reached (the result carries no decoded fields). -/
theorem c3_short_read_truncation (strfmtC : Nat → String) (bytes : List Nat)
    (hlen : bytes.length < sizeofControlFileData) :
    get_controldata strfmtC (some bytes) = .error .readFailed := by
  simp only [get_controldata]
  rw [if_pos hlen]

/-- Witness for C3 at a concrete short input: the empty file fails with
the truncation read error. -/
theorem c3_short_read_truncation_witness :
    get_controldata (fun _ => "") (some []) = .error .readFailed :=
  c3_short_read_truncation (fun _ => "") [] (by decide)

/-- C4: for every integer value of the database-state field outside the
known enumeration set 0..5, the state renders as "unrecognized status
code" (the formatter is total, so decoding never aborts); each of the
six known states renders its own fixed display string; and the decoded
table's fourth entry is exactly the rendered state, for every record. -/
theorem c4_db_state :
    (∀ s, 5 < s → dbState s = "unrecognized status code") ∧
    dbState 0 = "starting up" ∧
    dbState 1 = "shut down" ∧
    dbState 2 = "shutting down" ∧
    dbState 3 = "in crash recovery" ∧
    dbState 4 = "in archive recovery" ∧
    dbState 5 = "in production" ∧
    ∀ strfmtC cf, (formatControlData strfmtC cf).getD 3 ("", "") =
      ("Database cluster state", dbState cf.state) := by
  refine ⟨?_, rfl, rfl, rfl, rfl, rfl, rfl, fun strfmtC cf => rfl⟩
  intro s hs
  obtain ⟨m, rfl⟩ : ∃ m, s = m + 6 := ⟨s - 6, by omega⟩
  rfl

/-- Witness for C4 at a concrete out-of-range state value. -/
theorem c4_db_state_witness : dbState 99 = "unrecognized status code" :=
  c4_db_state.1 99 (by decide)

/-- C5: every log-pointer entry is rendered as the high component's
uppercase hexadecimal representation with no leading zero-padding, a
slash, then the low component likewise: the hex renderer never emits a
leading zero digit for a positive value, emits only uppercase hex
digits, and high=0x1, low=0x2A renders exactly "1/2A"; all five
log-pointer entries of the decoded table use exactly this rendering. -/
theorem c5_logptr_format :
    (∀ n, 0 < n → (printfX n).data.head? ≠ some '0') ∧
    (∀ n c, c ∈ (printfX n).data → c ∈ hexDigitList) ∧
    formatXLogRecPtr ⟨1, 42⟩ = "1/2A" ∧
    (∀ strfmtC cf,
      (formatControlData strfmtC cf).getD 5 ("", "") =
        ("Latest checkpoint location",
          printfX cf.checkPoint.xlogid ++ "/" ++ printfX cf.checkPoint.xrecoff) ∧
      (formatControlData strfmtC cf).getD 6 ("", "") =
        ("Prior checkpoint location",
          printfX cf.prevCheckPoint.xlogid ++ "/" ++ printfX cf.prevCheckPoint.xrecoff) ∧
      (formatControlData strfmtC cf).getD 7 ("", "") =
        ("Latest checkpoint's REDO location",
          printfX cf.checkPointCopy.redo.xlogid ++ "/" ++
            printfX cf.checkPointCopy.redo.xrecoff) ∧
      (formatControlData strfmtC cf).getD 17 ("", "") =
        ("Minimum recovery ending location",
          printfX cf.minRecoveryPoint.xlogid ++ "/" ++ printfX cf.minRecoveryPoint.xrecoff) ∧
      (formatControlData strfmtC cf).getD 18 ("", "") =
        ("Backup start location",
          printfX cf.backupStartPoint.xlogid ++ "/" ++
            printfX cf.backupStartPoint.xrecoff)) := by
  refine ⟨?_, ?_, by decide, fun strfmtC cf => ⟨rfl, rfl, rfl, rfl, rfl⟩⟩
  · intro n hn hcontra
    obtain ⟨c, cs, he, hc⟩ :=
      hexCharsAux_head (n + 1) n []
        (lt_of_lt_of_le (Nat.lt_pow_self (by norm_num) n)
          (Nat.pow_le_pow_right (by norm_num) (by omega))) hn
    have h2 : (hexCharsAux (n + 1) n []).head? = some '0' := hcontra
    rw [he] at h2
    simp at h2
    exact hc h2
  · intro n c hcm
    exact hexCharsAux_mem (n + 1) n []
      (fun x hx => absurd hx (List.not_mem_nil x)) c hcm

/-- Witness for C5 at concrete values: 26 renders as "1A" with no
leading zero, and its digits are drawn from the uppercase hex set. -/
theorem c5_logptr_format_witness :
    (printfX 26).data.head? ≠ some '0' ∧ '2' ∈ hexDigitList :=
  ⟨c5_logptr_format.1 26 (by decide), c5_logptr_format.2.1 42 '2' (by decide)⟩

/-- C6: the system-identifier entry is rendered by the exact decimal
formatter: the rendering is injective (two different 64-bit values never
render alike, so nothing is truncated), the concrete value
123456789012345 renders as the literal "123456789012345", and the
decoded table's third entry is exactly that rendering of the record's
system identifier. -/
theorem c6_sysid_decimal :
    (∀ n m : Nat, printfU n = printfU m → n = m) ∧
    printfU 123456789012345 = "123456789012345" ∧
    (∀ strfmtC cf, (formatControlData strfmtC cf).getD 2 ("", "") =
      ("Database system identifier", printfU cf.system_identifier)) :=
  ⟨fun _ _ h => printfU_inj h, by decide, fun _ _ => rfl⟩

/-- Witness for C6: injectivity applied at a concrete value. -/
theorem c6_sysid_decimal_witness : (123456789012345 : Nat) = 123456789012345 :=
  c6_sysid_decimal.1 123456789012345 123456789012345 rfl

/-- C7: each representation flag maps its true value to one fixed
literal string and its false value to the other, in both directions:
date/time storage renders "64-bit integers" when the flag is set and
"floating-point numbers" when clear; each float-passing flag renders
"by value" when set and "by reference" when clear. -/
theorem c7_flag_strings : ∀ strfmtC cf,
    (cf.enableIntTimes = true → (formatControlData strfmtC cf).getD 27 ("", "") =
      ("Date/time type storage", "64-bit integers")) ∧
    (cf.enableIntTimes = false → (formatControlData strfmtC cf).getD 27 ("", "") =
      ("Date/time type storage", "floating-point numbers")) ∧
    (cf.float4ByVal = true → (formatControlData strfmtC cf).getD 28 ("", "") =
      ("Float4 argument passing", "by value")) ∧
    (cf.float4ByVal = false → (formatControlData strfmtC cf).getD 28 ("", "") =
      ("Float4 argument passing", "by reference")) ∧
    (cf.float8ByVal = true → (formatControlData strfmtC cf).getD 29 ("", "") =
      ("Float8 argument passing", "by value")) ∧
    (cf.float8ByVal = false → (formatControlData strfmtC cf).getD 29 ("", "") =
      ("Float8 argument passing", "by reference")) := by
  intro strfmtC cf
  refine ⟨?_, ?_, ?_, ?_, ?_, ?_⟩ <;> intro h
  · show ("Date/time type storage",
      if cf.enableIntTimes then "64-bit integers" else "floating-point numbers") = _
    rw [h]
    simp
  · show ("Date/time type storage",
      if cf.enableIntTimes then "64-bit integers" else "floating-point numbers") = _
    rw [h]
    simp
  · show ("Float4 argument passing",
      if cf.float4ByVal then "by value" else "by reference") = _
    rw [h]
    simp
  · show ("Float4 argument passing",
      if cf.float4ByVal then "by value" else "by reference") = _
    rw [h]
    simp
  · show ("Float8 argument passing",
      if cf.float8ByVal then "by value" else "by reference") = _
    rw [h]
    simp
  · show ("Float8 argument passing",
      if cf.float8ByVal then "by value" else "by reference") = _
    rw [h]
    simp

/-- Witness for C7 at concrete records with the date/time flag set and
clear. -/
theorem c7_flag_strings_witness :
    (formatControlData (fun _ => "") (parseControlFileData (List.replicate 151 1))).getD 27
      ("", "") = ("Date/time type storage", "64-bit integers") ∧
    (formatControlData (fun _ => "") (parseControlFileData [])).getD 27
      ("", "") = ("Date/time type storage", "floating-point numbers") :=
  ⟨(c7_flag_strings (fun _ => "") (parseControlFileData (List.replicate 151 1))).1
      (by decide),
    (c7_flag_strings (fun _ => "") (parseControlFileData [])).2.1 (by decide)⟩

/-- C8: decoding is all-or-nothing: on every failure path (open failure,
short read, checksum mismatch) the name/value table is left exactly as
it was, so no partial or half-decoded output is ever observable. -/
theorem c8_all_or_nothing : ∀ (strfmtC : Nat → String) file tbl e,
    (get_controldata_tbl strfmtC file tbl).1 = some e →
    (get_controldata_tbl strfmtC file tbl).2 = tbl := by
  intro strfmtC file tbl e h
  cases file with
  | none => rfl
  | some bytes =>
    by_cases h1 : bytes.length < sizeofControlFileData
    · simp [get_controldata_tbl, h1]
    · by_cases h2 : crc32 (bytes.take crcOffset) = (parseControlFileData bytes).crc
      · exfalso
        simp [get_controldata_tbl, h1, h2] at h
      · simp [get_controldata_tbl, h1, h2]

/-- Witness for C8 at a concrete failing call: an open failure leaves a
concrete table untouched. -/
theorem c8_all_or_nothing_witness :
    (get_controldata_tbl (fun _ => "") none [("x", none)]).2 = [("x", none)] :=
  c8_all_or_nothing (fun _ => "") none [("x", none)] PgError.openFailed rfl

/-- C9: decoding is a pure, deterministic function of the record and the
process's timestamp rendering: the outcome never depends on the
in-process table state left by earlier calls, a successful decode
produces the same output whatever that state was, and running the same
call again on its own resulting state reproduces it exactly (no current
time or other hidden input is consumed: the model's only inputs are the
file bytes and the timestamp renderer). -/
theorem c9_pure_deterministic : ∀ (strfmtC : Nat → String) file t1 t2,
    (get_controldata_tbl strfmtC file t1).1 = (get_controldata_tbl strfmtC file t2).1 ∧
    ((get_controldata_tbl strfmtC file t1).1 = none →
      (get_controldata_tbl strfmtC file t1).2 = (get_controldata_tbl strfmtC file t2).2) ∧
    get_controldata_tbl strfmtC file ((get_controldata_tbl strfmtC file t1).2) =
      get_controldata_tbl strfmtC file t1 := by
  intro strfmtC file t1 t2
  cases file with
  | none => exact ⟨rfl, fun h => Option.noConfusion h, rfl⟩
  | some bytes =>
    by_cases h1 : bytes.length < sizeofControlFileData
    · refine ⟨?_, ?_, ?_⟩ <;> simp [get_controldata_tbl, h1]
    · by_cases h2 : crc32 (bytes.take crcOffset) = (parseControlFileData bytes).crc
      · refine ⟨?_, ?_, ?_⟩ <;> simp [get_controldata_tbl, h1, h2]
      · refine ⟨?_, ?_, ?_⟩ <;> simp [get_controldata_tbl, h1, h2]

/-- Success of the table-state embedding on any checksum-valid record:
used to instantiate C9's success-conditioned part on a concrete file. -/
theorem get_controldata_tbl_fst (strfmtC : Nat → String) (bytes : List Nat)
    (t : List (String × Option String))
    (hlen : sizeofControlFileData ≤ bytes.length)
    (hcrc : crc32 (bytes.take crcOffset) = (parseControlFileData bytes).crc) :
    (get_controldata_tbl strfmtC (some bytes) t).1 = none := by
  simp only [get_controldata_tbl]
  rw [if_neg (Nat.not_lt.mpr hlen), if_neg (not_ne_iff.mpr hcrc)]

/-- Witness for C9 at a concrete record: a successful decode of the zero
record yields the same table from two different initial states. -/
theorem c9_pure_deterministic_witness :
    (get_controldata_tbl (fun _ => "") (some zeroRecord) [("x", some "y")]).2 =
      (get_controldata_tbl (fun _ => "") (some zeroRecord) []).2 :=
  (c9_pure_deterministic (fun _ => "") (some zeroRecord) [("x", some "y")] []).2.1
    (get_controldata_tbl_fst (fun _ => "") zeroRecord [("x", some "y")] (by decide)
      zeroRecord_crc_ok)

/-- C10 as amended: the reader leaves an opened file handle open at exit
only on the short-read error path (the source raises that error before
`close(fd)`); on the success, open-failure and checksum-mismatch paths
no handle remains open.  The file is opened read-only and never written
in any path. -/
theorem c10_fd_closed_amended : ∀ (strfmtC : Nat → String) file,
    (get_controldata_fd strfmtC file).2 = true →
    (get_controldata_fd strfmtC file).1 = .error .readFailed := by
  intro strfmtC file h
  cases file with
  | none => exact Bool.noConfusion h
  | some bytes =>
    by_cases h1 : bytes.length < sizeofControlFileData
    · simp [get_controldata_fd, h1]
    · by_cases h2 : crc32 (bytes.take crcOffset) = (parseControlFileData bytes).crc
      · exfalso
        simp [get_controldata_fd, h1, h2] at h
      · exfalso
        simp [get_controldata_fd, h1, h2] at h

/-- Counterexample to C10 as stated: on the short-read exit path of a
concrete one-byte file, the error is raised while the file handle is
still open, so the handle is not closed on every exit path. -/
theorem c10_fd_closed_counterexample :
    (get_controldata_fd (fun _ => "") (some [0])).1 = Except.error PgError.readFailed ∧
      (get_controldata_fd (fun _ => "") (some [0])).2 ≠ false :=
  ⟨rfl, by decide⟩

/-- Witness for the amended C10 at a concrete input: the one-byte file's
open handle at exit coincides with the short-read error. -/
theorem c10_fd_closed_amended_witness :
    (get_controldata_fd (fun _ => "") (some [0])).1 = .error .readFailed :=
  c10_fd_closed_amended (fun _ => "") (some [0]) rfl

end PgControldata
